import Mathlib

/-!
Verification of the frame-buffer ownership and synchronization core of the
FYP embedded media-pipeline controller (STM32N6570-DK application).

The definitions below are a shallow embedding of the C sources:
  * `src/Appli/Core/Inc/app_config.h`  — compile-time configuration constants
  * `src/Appli/Core/Inc/app_buffers.h` — buffer-index macros (getters/setters)
  * `src/Appli/Core/Src/app_buffers.c` — buffer/state initialization
  * `src/Appli/Core/Src/app_cam.c`     — frame-complete / vsync ISR callbacks
  * `src/Appli/Core/Src/app_ui.c`      — UI double buffering and CPU load sampler

Machine integers are embedded as `Nat`/`Int` with explicit reduction modulo
`2^32` where C unsigned 32-bit arithmetic matters.  C `int` values are `Int`;
the C cast `(unsigned)x` is `castUnsigned`.  External hardware calls are
recorded as events in a trace so that ordering claims can be stated.
-/

namespace FYP

/-! ## Configuration constants (src/Appli/Core/Inc/app_config.h) -/

/-- `#define DISPLAY_DELAY 1` -/
def DISPLAY_DELAY : Nat := 1

/-- `#define DISPLAY_BUFFER_NB (DISPLAY_DELAY + 2)` — the camera ring size N = 3. -/
def DISPLAY_BUFFER_NB : Nat := DISPLAY_DELAY + 2

/-- `#define LCD_WIDTH 800` -/
def LCD_WIDTH : Nat := 800

/-- `#define LCD_HEIGHT 480` -/
def LCD_HEIGHT : Nat := 480

/-- HAL DCMIPP pipe identifier for the display pipe (`DCMIPP_PIPE1`). -/
def DCMIPP_PIPE1 : Nat := 1

/-- HAL success status (`HAL_OK = 0`). -/
def HAL_OK : Int := 0

/-- Modulus of C unsigned 32-bit arithmetic, `2^32`. -/
def UINT32_MOD : Nat := 4294967296

/-- C cast `(unsigned)x` of a C `int` value: reduction modulo `2^32`. -/
def castUnsigned (i : Int) : Nat := (i % (UINT32_MOD : Int)).toNat

/-- C unsigned 32-bit subtraction `a - b` (wraps modulo `2^32`). -/
def usub32 (a b : Nat) : Nat := (a % UINT32_MOD + UINT32_MOD - b % UINT32_MOD) % UINT32_MOD

/-! ## Camera capture ring state (app_buffers.c / app_buffers.h) -/

/-- The two `volatile int` ring indices of `src/Appli/Core/Src/app_buffers.c`:
`camera_display_idx` (slot being shown) and `camera_capture_idx` (slot being
written by the capture hardware). -/
structure CamRing where
  camera_display_idx : Int
  camera_capture_idx : Int
deriving DecidableEq, Repr

/-- The ring state established by `Buffer_Init` (app_buffers.c lines 44-45):
`camera_display_idx = 1`, `camera_capture_idx = 0`. -/
def Buffer_Init_camState : CamRing := ⟨1, 0⟩

/-- Macro `Buffer_GetNextCameraDisplayIndex` generalized over the ring size `N`:
`((idx) + 1) % N` with C truncated `int` division (`Int.tmod`). -/
def nextIdxN (N : Nat) (i : Int) : Int := (i + 1).tmod (N : Int)

/-- `Buffer_GetNextCameraDisplayIndex` (app_buffers.h lines 52-53). -/
def Buffer_GetNextCameraDisplayIndex (s : CamRing) : Int :=
  nextIdxN DISPLAY_BUFFER_NB s.camera_display_idx

/-- `Buffer_GetNextCameraCaptureIndex` (app_buffers.h lines 59-60). -/
def Buffer_GetNextCameraCaptureIndex (s : CamRing) : Int :=
  nextIdxN DISPLAY_BUFFER_NB s.camera_capture_idx

/-- Events recording the externally visible side effects of the frame-complete
handler `CMW_CAMERA_PIPE_FrameEventCallback` (app_cam.c lines 215-240). -/
inductive CamEvent where
  /-- `HAL_DCMIPP_PIPE_SetMemoryAddress`: redirect the capture hardware's
  write target to the given slot. -/
  | setMemoryAddress (slot : Option (Fin DISPLAY_BUFFER_NB))
  /-- `LCD_ReloadCameraLayer`: commit the given slot's address to the display
  layer (reload at vertical blanking). -/
  | reloadCameraLayer (slot : Option (Fin DISPLAY_BUFFER_NB))
  /-- assignment `camera_display_idx = idx` performed by
  `Buffer_SetCameraDisplayIndex`. -/
  | setDisplayIndex (i : Int)
  /-- assignment `camera_capture_idx = idx` performed by
  `Buffer_SetCameraCaptureIndex`. -/
  | setCaptureIndex (i : Int)
  /-- `APP_Panic` (app_error.h lines 36-45): record location and halt. -/
  | panic
deriving DecidableEq, Repr

/-- Macro `Buffer_GetCameraDisplayBuffer` (app_buffers.h lines 67-71)
generalized over the ring size `N`:
`((unsigned)_idx >= N) ? NULL : camera_display_buffers[_idx]`.
A slot handle is its index (the slots are fixed distinct memory regions). -/
def bufferGetN (N : Nat) (idx : Int) : Option (Fin N) :=
  if h : N ≤ castUnsigned idx then none
  else some ⟨castUnsigned idx, Nat.lt_of_not_le h⟩

/-- `Buffer_GetCameraDisplayBuffer` at the compiled ring size. -/
def Buffer_GetCameraDisplayBuffer (idx : Int) : Option (Fin DISPLAY_BUFFER_NB) :=
  bufferGetN DISPLAY_BUFFER_NB idx

/-- Macro `Buffer_SetCameraDisplayIndex` (app_buffers.h lines 78-86)
generalized over the ring size `N`: guards `(unsigned)_idx >= N`, assigns on
success; returns 0 on success, -1 on out-of-range.  The returned trace holds
the assignment event iff the assignment happened. -/
def Buffer_SetCameraDisplayIndexN (N : Nat) (s : CamRing) (idx : Int) :
    CamRing × Int × List CamEvent :=
  if N ≤ castUnsigned idx then (s, -1, [])
  else ({ s with camera_display_idx := idx }, 0, [CamEvent.setDisplayIndex idx])

/-- Macro `Buffer_SetCameraCaptureIndex` (app_buffers.h lines 93-101),
generalized over the ring size `N`. -/
def Buffer_SetCameraCaptureIndexN (N : Nat) (s : CamRing) (idx : Int) :
    CamRing × Int × List CamEvent :=
  if N ≤ castUnsigned idx then (s, -1, [])
  else ({ s with camera_capture_idx := idx }, 0, [CamEvent.setCaptureIndex idx])

/-- The state effect of one frame-complete advance on the display pipe,
generalized over the ring size `N`: compute both successor indices, then apply
the two guarded index assignments (the pure-state part of
`CMW_CAMERA_PIPE_FrameEventCallback`, app_cam.c lines 221-237). -/
def advanceIndicesN (N : Nat) (s : CamRing) : CamRing :=
  let next_disp := nextIdxN N s.camera_display_idx
  let next_capt := nextIdxN N s.camera_capture_idx
  let s1 := (Buffer_SetCameraDisplayIndexN N s next_disp).1
  (Buffer_SetCameraCaptureIndexN N s1 next_capt).1

/-- `CMW_CAMERA_PIPE_FrameEventCallback` (app_cam.c lines 215-240).
Inputs beyond the ring state: the pipe that raised the event, whether
`CMW_CAMERA_GetDCMIPPHandle()` returns a handle (`hdcmipp != NULL`), and the
HAL status returned by `HAL_DCMIPP_PIPE_SetMemoryAddress` (which the C code
does not inspect).  Returns the new ring state, the callback's return value,
and the ordered trace of side effects. -/
def CMW_CAMERA_PIPE_FrameEventCallback (hdcmipp_present : Bool) (redirect_status : Int)
    (pipe : Nat) (s : CamRing) : CamRing × Int × List CamEvent :=
  if pipe ≠ DCMIPP_PIPE1 then (s, HAL_OK, [])
  else
    let next_disp := Buffer_GetNextCameraDisplayIndex s
    let next_capt := Buffer_GetNextCameraCaptureIndex s
    -- `if (hdcmipp != NULL)` guards only the redirect; its HAL status is dropped
    let redirectTrace :=
      if hdcmipp_present then [CamEvent.setMemoryAddress (Buffer_GetCameraDisplayBuffer next_capt)]
      else []
    let _ := redirect_status
    let commitTrace := [CamEvent.reloadCameraLayer (Buffer_GetCameraDisplayBuffer next_disp)]
    let r1 := Buffer_SetCameraDisplayIndexN DISPLAY_BUFFER_NB s next_disp
    let r2 := Buffer_SetCameraCaptureIndexN DISPLAY_BUFFER_NB r1.1 next_capt
    (r2.1, HAL_OK, redirectTrace ++ commitTrace ++ r1.2.2 ++ r2.2.2)

/-! ## Helper lemmas for the ring invariant -/

theorem castUnsigned_natCast (n : Nat) (h : n < UINT32_MOD) : castUnsigned (n : Int) = n := by
  unfold castUnsigned UINT32_MOD at *
  omega

theorem nextIdxN_natCast (N a : Nat) (hN : 0 < N) :
    nextIdxN N (a : Int) = (((a + 1) % N : Nat) : Int) := by
  unfold nextIdxN
  rw [Int.tmod_eq_emod (by omega) (by omega)]
  push_cast
  rfl

theorem advanceIndicesN_natState (N a b : Nat) (hN : 3 ≤ N) (hNmax : N ≤ 2 ^ 31) :
    advanceIndicesN N ⟨(a : Int), (b : Int)⟩ =
      ⟨(((a + 1) % N : Nat) : Int), (((b + 1) % N : Nat) : Int)⟩ := by
  have hmod : ∀ x : Nat, x < N → (x : Nat) < UINT32_MOD := by
    unfold UINT32_MOD
    omega
  unfold advanceIndicesN Buffer_SetCameraDisplayIndexN Buffer_SetCameraCaptureIndexN
  simp only [nextIdxN_natCast N _ (by omega)]
  rw [castUnsigned_natCast _ (hmod _ (Nat.mod_lt _ (by omega))),
      castUnsigned_natCast _ (hmod _ (Nat.mod_lt _ (by omega)))]
  have h1 : ¬ N ≤ (a + 1) % N := by
    have := Nat.mod_lt (a + 1) (show 0 < N by omega)
    omega
  have h2 : ¬ N ≤ (b + 1) % N := by
    have := Nat.mod_lt (b + 1) (show 0 < N by omega)
    omega
  simp [h1, h2]

theorem iterate_advanceIndicesN (N : Nat) (hN : 3 ≤ N) (hNmax : N ≤ 2 ^ 31) (k : Nat) :
    (advanceIndicesN N)^[k] Buffer_Init_camState =
      ⟨(((1 + k) % N : Nat) : Int), ((k % N : Nat) : Int)⟩ := by
  induction k with
  | zero =>
      simp [Buffer_Init_camState, Nat.mod_eq_of_lt (show 1 < N by omega)]
  | succ k ih =>
      rw [Function.iterate_succ_apply', ih]
      rw [advanceIndicesN_natState N _ _ hN hNmax]
      have e1 : ((1 + k) % N + 1) % N = (1 + (k + 1)) % N := by
        rw [Nat.mod_add_mod]
        congr 1
      have e2 : (k % N + 1) % N = (k + 1) % N := Nat.mod_add_mod k N 1
      rw [e1, e2]

theorem succ_mod_ne_self_mod (N k : Nat) (hN : 3 ≤ N) : (1 + k) % N ≠ k % N := by
  intro h
  have hmodeq : k ≡ 1 + k [MOD N] := h.symm
  have hdvd : N ∣ (1 + k) - k := (Nat.modEq_iff_dvd' (by omega)).mp hmodeq
  have : N ∣ 1 := by
    have e : (1 + k) - k = 1 := by omega
    rwa [e] at hdvd
  have := Nat.le_of_dvd (by omega) this
  omega

/-- C1: starting from the initialized state `(display = 1, capture = 0)`, with
ring size `N = DISPLAY_BUFFER_NB ≥ 3` (a compile-time C `int` constant, hence
`N ≤ 2^31`), after every number `k` of frame-complete advances on the display
pipe the two indices remain distinct: `camera_display_idx ≠ camera_capture_idx`. -/
theorem camera_ring_indices_always_distinct (N k : Nat) (hN : 3 ≤ N) (hNmax : N ≤ 2 ^ 31) :
    ((advanceIndicesN N)^[k] Buffer_Init_camState).camera_display_idx ≠
      ((advanceIndicesN N)^[k] Buffer_Init_camState).camera_capture_idx := by
  rw [iterate_advanceIndicesN N hN hNmax k]
  intro h
  have h2 : (((1 + k) % N : Nat) : Int) = ((k % N : Nat) : Int) := h
  exact succ_mod_ne_self_mod N k hN (by exact_mod_cast h2)

/-- Witness for C1: at the compiled ring size `N = 3` after `k = 4` advances
the indices are distinct. -/
theorem camera_ring_indices_always_distinct_witness :
    ((advanceIndicesN 3)^[4] Buffer_Init_camState).camera_display_idx ≠
      ((advanceIndicesN 3)^[4] Buffer_Init_camState).camera_capture_idx :=
  camera_ring_indices_always_distinct 3 4 (by decide) (by norm_num)

/-! ## Frame-complete callback: ordering, failure behavior, other pipes -/

theorem castUnsigned_of_bounds (i : Int) (h0 : 0 ≤ i) (h1 : i < (UINT32_MOD : Int)) :
    castUnsigned i = i.toNat := by
  unfold castUnsigned UINT32_MOD at *
  omega

theorem castUnsigned_next_lt (i : Int) (h0 : 0 ≤ i) (h1 : i < (DISPLAY_BUFFER_NB : Int)) :
    castUnsigned (nextIdxN DISPLAY_BUFFER_NB i) < DISPLAY_BUFFER_NB := by
  unfold nextIdxN castUnsigned UINT32_MOD DISPLAY_BUFFER_NB DISPLAY_DELAY at *
  rw [Int.tmod_eq_emod (by omega) (by omega)]
  omega

/-- C2: in every invocation of the frame-complete handler for the display pipe
(`pipe = DCMIPP_PIPE1`) in which the hardware handle is available, the side
effects occur in exactly this order: (a) the capture hardware's write target
is redirected to the next capture slot, (b) the next display slot's address is
committed to the display layer, (c) the display index is published, (d) the
capture index is published — the external calls strictly before the index
publications, all within the single invocation.  The ring indices are in
`[0, DISPLAY_BUFFER_NB)` (the setter guards of app_buffers.h keep them there). -/
theorem frame_callback_effect_order (redirect_status : Int) (s : CamRing)
    (hd0 : 0 ≤ s.camera_display_idx) (hd1 : s.camera_display_idx < (DISPLAY_BUFFER_NB : Int))
    (hc0 : 0 ≤ s.camera_capture_idx) (hc1 : s.camera_capture_idx < (DISPLAY_BUFFER_NB : Int)) :
    (CMW_CAMERA_PIPE_FrameEventCallback true redirect_status DCMIPP_PIPE1 s).2.2 =
      [CamEvent.setMemoryAddress (Buffer_GetCameraDisplayBuffer (Buffer_GetNextCameraCaptureIndex s)),
       CamEvent.reloadCameraLayer (Buffer_GetCameraDisplayBuffer (Buffer_GetNextCameraDisplayIndex s)),
       CamEvent.setDisplayIndex (Buffer_GetNextCameraDisplayIndex s),
       CamEvent.setCaptureIndex (Buffer_GetNextCameraCaptureIndex s)] := by
  have h1 := castUnsigned_next_lt _ hd0 hd1
  have h2 := castUnsigned_next_lt _ hc0 hc1
  unfold CMW_CAMERA_PIPE_FrameEventCallback Buffer_SetCameraDisplayIndexN
    Buffer_SetCameraCaptureIndexN Buffer_GetNextCameraDisplayIndex
    Buffer_GetNextCameraCaptureIndex
  simp [Nat.not_le.mpr h1, Nat.not_le.mpr h2, Buffer_GetNextCameraDisplayIndex,
    Buffer_GetNextCameraCaptureIndex]

/-- Witness for C2: the trace of a frame-complete advance from the initialized
state has the four events in the specified order. -/
theorem frame_callback_effect_order_witness :
    (CMW_CAMERA_PIPE_FrameEventCallback true 0 DCMIPP_PIPE1 ⟨1, 0⟩).2.2 =
      [CamEvent.setMemoryAddress (Buffer_GetCameraDisplayBuffer (Buffer_GetNextCameraCaptureIndex ⟨1, 0⟩)),
       CamEvent.reloadCameraLayer (Buffer_GetCameraDisplayBuffer (Buffer_GetNextCameraDisplayIndex ⟨1, 0⟩)),
       CamEvent.setDisplayIndex (Buffer_GetNextCameraDisplayIndex ⟨1, 0⟩),
       CamEvent.setCaptureIndex (Buffer_GetNextCameraCaptureIndex ⟨1, 0⟩)] :=
  frame_callback_effect_order 0 ⟨1, 0⟩ (by decide) (by decide) (by decide) (by decide)

/-- Counterexample for C3: from the initialized state, when the hardware
redirect call fails (`HAL_DCMIPP_PIPE_SetMemoryAddress` returns the error
status 1) the handler does NOT abort: it still commits the display address,
still publishes both indices (the state advances to `(2, 1)`), returns
`HAL_OK`, and emits no `APP_Panic`.  Likewise when no hardware handle is
available (`hdcmipp == NULL`): the redirect is silently skipped and the
advance still completes. -/
theorem frame_callback_ignores_redirect_failure :
    (CMW_CAMERA_PIPE_FrameEventCallback true 1 DCMIPP_PIPE1 ⟨1, 0⟩).1 = ⟨2, 1⟩ ∧
    (CMW_CAMERA_PIPE_FrameEventCallback true 1 DCMIPP_PIPE1 ⟨1, 0⟩).2.1 = HAL_OK ∧
    CamEvent.panic ∉ (CMW_CAMERA_PIPE_FrameEventCallback true 1 DCMIPP_PIPE1 ⟨1, 0⟩).2.2 ∧
    CamEvent.reloadCameraLayer (Buffer_GetCameraDisplayBuffer 2) ∈
      (CMW_CAMERA_PIPE_FrameEventCallback true 1 DCMIPP_PIPE1 ⟨1, 0⟩).2.2 ∧
    (CMW_CAMERA_PIPE_FrameEventCallback false 0 DCMIPP_PIPE1 ⟨1, 0⟩).1 = ⟨2, 1⟩ ∧
    CamEvent.panic ∉ (CMW_CAMERA_PIPE_FrameEventCallback false 0 DCMIPP_PIPE1 ⟨1, 0⟩).2.2 := by
  decide

theorem panic_not_mem_setDisplayTrace (N : Nat) (s : CamRing) (i : Int)
    (h : CamEvent.panic ∈ (Buffer_SetCameraDisplayIndexN N s i).2.2) : False := by
  unfold Buffer_SetCameraDisplayIndexN at h
  revert h
  split <;> simp

theorem panic_not_mem_setCaptureTrace (N : Nat) (s : CamRing) (i : Int)
    (h : CamEvent.panic ∈ (Buffer_SetCameraCaptureIndexN N s i).2.2) : False := by
  unfold Buffer_SetCameraCaptureIndexN at h
  revert h
  split <;> simp

/-- C3 amended: the frame-complete handler never fails fast.  For every pipe,
handle availability and redirect status it returns `HAL_OK`, never emits
`APP_Panic`, its behavior is independent of the redirect call's status, and on
the display pipe the index advance is applied unconditionally (even after a
failed or skipped redirect). -/
theorem frame_callback_never_panics (hp : Bool) (r r2 : Int) (pipe : Nat) (s : CamRing) :
    (CMW_CAMERA_PIPE_FrameEventCallback hp r pipe s).2.1 = HAL_OK ∧
    CamEvent.panic ∉ (CMW_CAMERA_PIPE_FrameEventCallback hp r pipe s).2.2 ∧
    CMW_CAMERA_PIPE_FrameEventCallback hp r pipe s =
      CMW_CAMERA_PIPE_FrameEventCallback hp r2 pipe s ∧
    (CMW_CAMERA_PIPE_FrameEventCallback hp r DCMIPP_PIPE1 s).1 =
      advanceIndicesN DISPLAY_BUFFER_NB s := by
  refine ⟨?_, ?_, rfl, ?_⟩
  · unfold CMW_CAMERA_PIPE_FrameEventCallback
    split
    · rfl
    · rfl
  · unfold CMW_CAMERA_PIPE_FrameEventCallback
    split
    · simp
    · intro hmem
      simp only [List.append_assoc, List.mem_append] at hmem
      rcases hmem with h1 | h2 | h3 | h4
      · cases hp <;> simp at h1
      · simp at h2
      · have := panic_not_mem_setDisplayTrace DISPLAY_BUFFER_NB _ _ h3
        exact this
      · have := panic_not_mem_setCaptureTrace DISPLAY_BUFFER_NB _ _ h4
        exact this
  · unfold CMW_CAMERA_PIPE_FrameEventCallback advanceIndicesN
      Buffer_GetNextCameraDisplayIndex Buffer_GetNextCameraCaptureIndex
    simp [DCMIPP_PIPE1]

/-- C10: invoking the frame-complete callback for any pipe other than the
display pipe returns `HAL_OK` and is a no-op: the ring state is unchanged and
no side effect (redirect, commit, index publication) is issued. -/
theorem frame_callback_other_pipe_noop (hp : Bool) (r : Int) (pipe : Nat) (s : CamRing)
    (h : pipe ≠ DCMIPP_PIPE1) :
    CMW_CAMERA_PIPE_FrameEventCallback hp r pipe s = (s, HAL_OK, []) := by
  unfold CMW_CAMERA_PIPE_FrameEventCallback
  simp [h]

/-- Witness for C10: the ML pipe (`DCMIPP_PIPE2 = 2`) leaves the state alone. -/
theorem frame_callback_other_pipe_noop_witness :
    CMW_CAMERA_PIPE_FrameEventCallback true 0 2 ⟨1, 0⟩ = (⟨1, 0⟩, HAL_OK, []) :=
  frame_callback_other_pipe_noop true 0 2 ⟨1, 0⟩ (by decide)

/-! ## Vsync ISR → ISP thread handoff (app_cam.c lines 247-272) -/

/-- ThreadX counting-semaphore primitive used by app_cam.c (external RTOS API;
`tx_semaphore_create(&isp_ctx.vsync_sem, "isp_vsync", 0)` starts the count at
0).  `tx_semaphore_put` increments the semaphore count; ThreadX semaphores are
counting, not binary. -/
def tx_semaphore_put (count : Nat) : Nat := count + 1

/-- `tx_semaphore_get(&sem, TX_WAIT_FOREVER)` as used by `isp_thread_entry`: a
positive count is decremented and the caller proceeds (`some` of the new
count); a zero count blocks the caller indefinitely (`none`). -/
def tx_semaphore_get (count : Nat) : Option Nat :=
  if count = 0 then none else some (count - 1)

/-- `CMW_CAMERA_PIPE_VsyncEventCallback` (app_cam.c lines 247-252): on the
display pipe, put the vsync semaphore; otherwise do nothing.  Returns the new
semaphore count and the callback's return value (`HAL_OK`). -/
def CMW_CAMERA_PIPE_VsyncEventCallback (pipe : Nat) (count : Nat) : Nat × Int :=
  if pipe = DCMIPP_PIPE1 then (tx_semaphore_put count, HAL_OK) else (count, HAL_OK)

/-- `k` vsync events on the display pipe delivered before the ISP thread next
consumes one (`isp_thread_entry` loops on `tx_semaphore_get`). -/
def vsyncIter (k : Nat) (count : Nat) : Nat :=
  (fun c => (CMW_CAMERA_PIPE_VsyncEventCallback DCMIPP_PIPE1 c).1)^[k] count

/-- Counterexample for C4: the vsync signal is not a binary set/unset flag.
Two vsync events delivered before the ISP thread consumes leave a pending
count of 2 (more than one pending event), and the thread's wait then succeeds
twice in a row without blocking — it is woken once per signal, not exactly
once for the burst; no signal is coalesced or lost. -/
theorem vsync_signals_not_coalesced :
    vsyncIter 2 0 = 2 ∧
    tx_semaphore_get (vsyncIter 2 0) = some 1 ∧
    tx_semaphore_get 1 = some 0 ∧
    tx_semaphore_get 0 = none := by
  decide

theorem vsyncIter_eq (k c : Nat) : vsyncIter k c = c + k := by
  induction k with
  | zero => rfl
  | succ k ih =>
      unfold vsyncIter at *
      rw [Function.iterate_succ_apply', ih]
      unfold CMW_CAMERA_PIPE_VsyncEventCallback tx_semaphore_put
      simp
      omega

/-- C4 amended: the ISR-to-thread tuning signal is a counting semaphore, not a
binary flag.  `k` vsync signals delivered on the display pipe before the ISP
thread next consumes accumulate a pending count of exactly `k`; the consumer
is then woken once per signal — each of the `k` successive waits succeeds
(decrementing the count) and the wait after the last one blocks.  No signal is
coalesced or lost. -/
theorem vsync_semaphore_counts (k : Nat) :
    vsyncIter k 0 = k ∧
    (∀ j, j < k → tx_semaphore_get (k - j) = some (k - j - 1)) ∧
    tx_semaphore_get 0 = none := by
  refine ⟨by rw [vsyncIter_eq]; omega, ?_, rfl⟩
  intro j hj
  unfold tx_semaphore_get
  rw [if_neg (by omega)]

/-- Witness for C4 amended: with `k = 2` signals the pending count is 2 and
the consumer's second wait (`j = 1`) still succeeds. -/
theorem vsync_semaphore_counts_witness :
    vsyncIter 2 0 = 2 ∧ tx_semaphore_get (2 - 1) = some (2 - 1 - 1) :=
  ⟨(vsync_semaphore_counts 2).1, (vsync_semaphore_counts 2).2.1 1 (by decide)⟩

/-! ## CPU load sampler (app_ui.c lines 105-201, app_ui.h) -/

/-- One entry of `cpuload_info_t.history` (app_ui.h lines 35-41): DWT cycle
counter reading, accumulated idle cycles, and the HAL tick in ms — all C
`uint32_t`, embedded as `Nat` understood modulo `2^32` (all arithmetic on them
below goes through `usub32`). -/
structure LoadSample where
  total : Nat
  idle : Nat
  tick : Nat
deriving DecidableEq, Repr

/-- `cpuload_info_t` (app_ui.h): `history[0] .. history[7]`, with
`CPU_LOAD_HISTORY_DEPTH = 8`. -/
structure cpuload_info_t where
  h0 : LoadSample
  h1 : LoadSample
  h2 : LoadSample
  h3 : LoadSample
  h4 : LoadSample
  h5 : LoadSample
  h6 : LoadSample
  h7 : LoadSample
deriving DecidableEq, Repr

/-- `UI_CPULoad_Init` (app_ui.c lines 127-131): `memset` the structure to zero
(and reset `g_last_history_update_tick` to 0, returned alongside). -/
def UI_CPULoad_Init : cpuload_info_t × Nat :=
  (⟨⟨0, 0, 0⟩, ⟨0, 0, 0⟩, ⟨0, 0, 0⟩, ⟨0, 0, 0⟩, ⟨0, 0, 0⟩, ⟨0, 0, 0⟩, ⟨0, 0, 0⟩, ⟨0, 0, 0⟩⟩, 0)

/-- `UI_CPULoad_Update` (app_ui.c lines 136-153).  Inputs: the current HAL
tick, DWT cycle count and idle-cycle accumulator readings, and the static
`g_last_history_update_tick`.  Shifts `history[0]` into `history[1]`, records
the new sample in `history[0]`; when ≥ 1000 ms have elapsed since the last
decimation, shifts `history[2..6]` into `history[3..7]` (memmove) and promotes
`history[1]` into `history[2]`.  Returns the new state and the new
`g_last_history_update_tick`. -/
def UI_CPULoad_Update (current_tick current_total current_idle g_last : Nat)
    (c : cpuload_info_t) : cpuload_info_t × Nat :=
  let c1 := { c with h1 := c.h0, h0 := ⟨current_total, current_idle, current_tick⟩ }
  if 1000 ≤ usub32 current_tick g_last then
    ({ c1 with h3 := c1.h2, h4 := c1.h3, h5 := c1.h4, h6 := c1.h5, h7 := c1.h6, h2 := c1.h1 },
     current_tick)
  else
    (c1, g_last)

/-- C `float` division embedded over `ℚ`: `none` marks a division whose
denominator is zero (the NaN/divide-by-zero case the guards must prevent). -/
def fdivQ (a b : ℚ) : Option ℚ := if b = 0 then none else some (a / b)

/-- `UI_CPULoad_GetInstant` (app_ui.c lines 160-167): unsigned 32-bit deltas
between `history[0]` and `history[1]`; returns 0.0 when `total_delta == 0`,
else `100 * (1 - idle_delta / total_delta)`. -/
def UI_CPULoad_GetInstant (c : cpuload_info_t) : Option ℚ :=
  let total_delta := usub32 c.h0.total c.h1.total
  if total_delta = 0 then some 0
  else
    let idle_delta := usub32 c.h0.idle c.h1.idle
    (fdivQ (idle_delta : ℚ) (total_delta : ℚ)).map (fun r => 100 * (1 - r))

/-- `UI_CPULoad_GetInfo` (app_ui.c lines 172-201): the instantaneous load plus
the 1-second window (`history[2]` vs `history[3]`) and the ~5-second window
(`history[2]` vs `history[7]`); each windowed load is 0.0 unless its
`total_delta > 0`. -/
def UI_CPULoad_GetInfo (c : cpuload_info_t) : Option ℚ × Option ℚ × Option ℚ :=
  let second :=
    let total_delta := usub32 c.h2.total c.h3.total
    if 0 < total_delta then
      (fdivQ ((usub32 c.h2.idle c.h3.idle : Nat) : ℚ) (total_delta : ℚ)).map
        (fun r => 100 * (1 - r))
    else some 0
  let five :=
    let total_delta := usub32 c.h2.total c.h7.total
    if 0 < total_delta then
      (fdivQ ((usub32 c.h2.idle c.h7.idle : Nat) : ℚ) (total_delta : ℚ)).map
        (fun r => 100 * (1 - r))
    else some 0
  (UI_CPULoad_GetInstant c, second, five)

/-! ## UI overlay double buffering (app_ui.c / app_buffers.h) -/

/-- Size in bytes of one UI slot: `LCD_WIDTH * LCD_HEIGHT * 4` (ARGB8888). -/
def UI_BUF_SIZE : Nat := LCD_WIDTH * LCD_HEIGHT * 4

/-- UI subsystem state: the `volatile int ui_display_idx` front index (kept in
{0,1} by the `Buffer_SetUIDisplayIndex` guard; reads index a 2-element array),
the byte contents of `ui_display_buffers[2]`, the `g_ui_visible` /
`g_ui_initialized` flags of app_ui.c, and the UI display layer's address
registers (shadow/pending and committed), identified by slot since the two
slots are fixed distinct memory regions. -/
structure UIState where
  ui_display_idx : Fin 2
  bufs : Fin 2 → Nat → Nat
  g_ui_visible : Nat
  g_ui_initialized : Nat
  uiLayerPending : Option (Fin 2)
  uiLayerCommitted : Option (Fin 2)

/-- Macro `Buffer_GetNextUIDisplayIndex` (app_buffers.h line 113):
`ui_display_idx ^ 1`. -/
def Buffer_GetNextUIDisplayIndex (i : Fin 2) : Fin 2 := if i = 0 then 1 else 0

/-- Macro `Buffer_GetUIBuffer` (app_buffers.h lines 120-124): bounds-checked
UI slot lookup with the C `(unsigned)` cast. -/
def Buffer_GetUIBuffer (idx : Int) : Option (Fin 2) := bufferGetN 2 idx

/-- `memset(buf, 0, LCD_WIDTH * LCD_HEIGHT * 4)`: zero the whole slot. -/
def clearBuf (b : Nat → Nat) : Nat → Nat := fun i => if i < UI_BUF_SIZE then 0 else b i

/-- Store new byte contents into one UI slot. -/
def writeBuf (s : UIState) (slot : Fin 2) (b : Nat → Nat) : UIState :=
  { s with bufs := fun j => if j = slot then b else s.bufs j }

/-- Modelled from the spec: `LCD_SetUILayerAddress` is called by `UI_Update`
and `UI_SetVisible` in src/Appli/Core/Src/app_ui.c but its definition is not
under src/.  Per the spec's external display interface
(`commit_display_address(layer, slot_address)` staged for the next reload) it
writes the given slot's address into the UI layer's pending-address register. -/
def LCD_SetUILayerAddress (s : UIState) (slot : Fin 2) : UIState :=
  { s with uiLayerPending := some slot }

/-- Modelled from the spec: `LCD_ReloadUILayer` is called by `UI_Update` and
`UI_SetVisible` in src/Appli/Core/Src/app_ui.c but its definition is not under
src/.  Per the spec's external display interface
(`commit_display_address` followed by `request_display_reload(AtVerticalBlank)`,
mirroring `LCD_ReloadCameraLayer` in app_lcd.c) the given slot's address
becomes the UI layer's committed address. -/
def LCD_ReloadUILayer (s : UIState) (slot : Fin 2) : UIState :=
  { s with uiLayerPending := some slot, uiLayerCommitted := some slot }

/-- `UI_Update` (app_ui.c lines 324-400).  External inputs: the tick, cycle
and idle-accumulator readings consumed by `UI_CPULoad_Update`, and the drawing
pass (the `UTIL_LCD_*` calls, which mutate the buffer the layer address points
at — the back buffer) abstracted as a function on buffer contents.
Early-returns when not initialized or not visible; otherwise: update the CPU
load sampler, set the layer address to the back buffer, draw into it, swap the
front index, reload. -/
def UI_Update (drawPass : (Nat → Nat) → Nat → Nat) (tick total idle : Nat)
    (s : UIState) (cpu : cpuload_info_t) (g_last : Nat) :
    UIState × cpuload_info_t × Nat :=
  if s.g_ui_initialized = 0 ∨ s.g_ui_visible = 0 then (s, cpu, g_last)
  else
    let cl := UI_CPULoad_Update tick total idle g_last cpu
    let back := Buffer_GetNextUIDisplayIndex s.ui_display_idx
    -- Buffer_GetUIBackBuffer returns the address of a static array: never NULL
    let s1 := LCD_SetUILayerAddress s back
    let s2 := writeBuf s1 back (drawPass (s1.bufs back))
    let s3 := { s2 with ui_display_idx := Buffer_GetNextUIDisplayIndex s2.ui_display_idx }
    (LCD_ReloadUILayer s3 back, cl.1, cl.2)

/-- `UI_SetVisible` (app_ui.c lines 405-418): store the flag; on hide, clear
the back buffer to fully transparent, commit it and swap it to front. -/
def UI_SetVisible (visible : Nat) (s : UIState) : UIState :=
  let s0 := { s with g_ui_visible := visible }
  if visible = 0 then
    let back := Buffer_GetNextUIDisplayIndex s0.ui_display_idx
    let s1 := LCD_SetUILayerAddress s0 back
    let s2 := writeBuf s1 back (clearBuf (s1.bufs back))
    let s3 := { s2 with ui_display_idx := Buffer_GetNextUIDisplayIndex s2.ui_display_idx }
    LCD_ReloadUILayer s3 back
  else s0

/-! ## Theorems about the UI double buffer (C5, C6) -/

/-- A concrete UI state: front slot 0, both slots zeroed, overlay visible and
initialized, no address committed yet. -/
def uiTestState : UIState :=
  { ui_display_idx := 0, bufs := fun _ _ => 0, g_ui_visible := 1, g_ui_initialized := 1,
    uiLayerPending := none, uiLayerCommitted := none }

/-- Counterexample for C5: starting from UI front index 0 (visible and
initialized), one `UI_Update` leaves the front index equal to 1 but leaves the
display layer's committed UI address equal to slot 1's address — the slot that
was BACK before the swap (the one just drawn into) — not slot 0's address as
claimed; the two slots are distinct memory regions. -/
theorem ui_update_commits_back_slot :
    (UI_Update id 0 0 0 uiTestState UI_CPULoad_Init.1 0).1.ui_display_idx = 1 ∧
    (UI_Update id 0 0 0 uiTestState UI_CPULoad_Init.1 0).1.uiLayerCommitted = some 1 ∧
    some (1 : Fin 2) ≠ some (0 : Fin 2) :=
  ⟨rfl, rfl, by decide⟩

/-- C5 amended: starting from UI front index 0 while initialized and visible,
one `UI_Update` leaves the front index equal to 1 and leaves the display
layer's committed UI address equal to slot 1's address — the slot that was
back before the swap and was just drawn into (which is the new front). -/
theorem ui_update_swap (drawPass : (Nat → Nat) → Nat → Nat) (tick total idle g_last : Nat)
    (s : UIState) (cpu : cpuload_info_t) (h0 : s.ui_display_idx = 0)
    (hinit : s.g_ui_initialized ≠ 0) (hvis : s.g_ui_visible ≠ 0) :
    (UI_Update drawPass tick total idle s cpu g_last).1.ui_display_idx = 1 ∧
    (UI_Update drawPass tick total idle s cpu g_last).1.uiLayerCommitted = some 1 := by
  unfold UI_Update
  rw [if_neg (by simp [hinit, hvis])]
  simp [LCD_SetUILayerAddress, LCD_ReloadUILayer, writeBuf, Buffer_GetNextUIDisplayIndex, h0]

/-- Witness for C5 amended: the concrete front-0 state. -/
theorem ui_update_swap_witness :
    (UI_Update id 0 0 0 uiTestState UI_CPULoad_Init.1 0).1.ui_display_idx = 1 ∧
    (UI_Update id 0 0 0 uiTestState UI_CPULoad_Init.1 0).1.uiLayerCommitted = some 1 :=
  ui_update_swap id 0 0 0 0 uiTestState UI_CPULoad_Init.1 rfl (by decide) (by decide)

/-- C6: hiding the overlay is idempotent.  From any state of the two UI slots,
calling `UI_SetVisible 0` twice leaves the overlay marked not visible, leaves
the front index back at its original value, leaves the committed overlay
buffer equal to the (new) front slot with all its bytes zero — indeed both
slots are fully transparent — and each individual hide clears the then-back
buffer, commits it, and swaps it to front. -/
theorem ui_hide_idempotent (s : UIState) (i : Nat) (hi : i < UI_BUF_SIZE) :
    (UI_SetVisible 0 (UI_SetVisible 0 s)).g_ui_visible = 0 ∧
    (UI_SetVisible 0 (UI_SetVisible 0 s)).ui_display_idx = s.ui_display_idx ∧
    (UI_SetVisible 0 (UI_SetVisible 0 s)).uiLayerCommitted = some s.ui_display_idx ∧
    (UI_SetVisible 0 (UI_SetVisible 0 s)).bufs 0 i = 0 ∧
    (UI_SetVisible 0 (UI_SetVisible 0 s)).bufs 1 i = 0 ∧
    (UI_SetVisible 0 s).ui_display_idx = Buffer_GetNextUIDisplayIndex s.ui_display_idx ∧
    (UI_SetVisible 0 s).uiLayerCommitted = some (UI_SetVisible 0 s).ui_display_idx ∧
    (UI_SetVisible 0 s).bufs (UI_SetVisible 0 s).ui_display_idx i = 0 := by
  obtain ⟨idx, bufs, vis, init, pend, comm⟩ := s
  fin_cases idx <;>
    simp [UI_SetVisible, writeBuf, clearBuf, LCD_SetUILayerAddress, LCD_ReloadUILayer,
      Buffer_GetNextUIDisplayIndex, hi]

/-- Witness for C6: the concrete state `uiTestState`, byte 0. -/
theorem ui_hide_idempotent_witness :
    (UI_SetVisible 0 (UI_SetVisible 0 uiTestState)).g_ui_visible = 0 ∧
    (UI_SetVisible 0 (UI_SetVisible 0 uiTestState)).ui_display_idx = uiTestState.ui_display_idx ∧
    (UI_SetVisible 0 (UI_SetVisible 0 uiTestState)).uiLayerCommitted =
      some uiTestState.ui_display_idx ∧
    (UI_SetVisible 0 (UI_SetVisible 0 uiTestState)).bufs 0 0 = 0 ∧
    (UI_SetVisible 0 (UI_SetVisible 0 uiTestState)).bufs 1 0 = 0 ∧
    (UI_SetVisible 0 uiTestState).ui_display_idx =
      Buffer_GetNextUIDisplayIndex uiTestState.ui_display_idx ∧
    (UI_SetVisible 0 uiTestState).uiLayerCommitted =
      some (UI_SetVisible 0 uiTestState).ui_display_idx ∧
    (UI_SetVisible 0 uiTestState).bufs (UI_SetVisible 0 uiTestState).ui_display_idx 0 = 0 :=
  ui_hide_idempotent uiTestState 0 (by decide)

/-! ## Theorems about the CPU load sampler (C7, C8) -/

theorem usub32_self (a : Nat) : usub32 a a = 0 := by
  unfold usub32 UINT32_MOD
  omega

theorem UI_CPULoad_GetInstant_isSome (c : cpuload_info_t) :
    (UI_CPULoad_GetInstant c).isSome = true := by
  unfold UI_CPULoad_GetInstant fdivQ
  by_cases h : usub32 c.h0.total c.h1.total = 0
  · simp [h]
  · simp [h, Nat.cast_eq_zero]

theorem UI_CPULoad_GetInfo_second_isSome (c : cpuload_info_t) :
    ((UI_CPULoad_GetInfo c).2.1).isSome = true := by
  unfold UI_CPULoad_GetInfo fdivQ
  by_cases h : 0 < usub32 c.h2.total c.h3.total
  · simp [h, Nat.cast_eq_zero, Nat.pos_iff_ne_zero.mp h]
  · simp [h]

theorem UI_CPULoad_GetInfo_five_isSome (c : cpuload_info_t) :
    ((UI_CPULoad_GetInfo c).2.2).isSome = true := by
  unfold UI_CPULoad_GetInfo fdivQ
  by_cases h : 0 < usub32 c.h2.total c.h7.total
  · simp [h, Nat.cast_eq_zero, Nat.pos_iff_ne_zero.mp h]
  · simp [h]

/-- C7: whenever the relevant total-cycle delta is zero (`history[0].total =
history[1].total` for the instantaneous window, `history[2].total =
history[3].total` for the 1-second window, `history[2].total =
history[7].total` for the 5-second window) the corresponding load query
returns exactly 0; moreover, on every history state all three queries return
an actual value (`isSome`): the division is guarded, so no division by zero
(and hence no NaN) can occur. -/
theorem load_zero_delta_returns_zero (c : cpuload_info_t) :
    (c.h0.total = c.h1.total → UI_CPULoad_GetInstant c = some 0) ∧
    (c.h2.total = c.h3.total → (UI_CPULoad_GetInfo c).2.1 = some 0) ∧
    (c.h2.total = c.h7.total → (UI_CPULoad_GetInfo c).2.2 = some 0) ∧
    (UI_CPULoad_GetInstant c).isSome = true ∧
    ((UI_CPULoad_GetInfo c).2.1).isSome = true ∧
    ((UI_CPULoad_GetInfo c).2.2).isSome = true := by
  refine ⟨?_, ?_, ?_, ?_, ?_, ?_⟩
  · intro h
    unfold UI_CPULoad_GetInstant
    rw [h, usub32_self]
    rfl
  · intro h
    unfold UI_CPULoad_GetInfo
    rw [h, usub32_self]
    rfl
  · intro h
    unfold UI_CPULoad_GetInfo
    rw [h, usub32_self]
    rfl
  · exact UI_CPULoad_GetInstant_isSome c
  · exact UI_CPULoad_GetInfo_second_isSome c
  · exact UI_CPULoad_GetInfo_five_isSome c

/-- Witness for C7: the zero-initialized history has all total deltas zero and
every query returns 0. -/
theorem load_zero_delta_returns_zero_witness :
    UI_CPULoad_GetInstant UI_CPULoad_Init.1 = some 0 ∧
    (UI_CPULoad_GetInfo UI_CPULoad_Init.1).2.1 = some 0 ∧
    (UI_CPULoad_GetInfo UI_CPULoad_Init.1).2.2 = some 0 :=
  ⟨(load_zero_delta_returns_zero UI_CPULoad_Init.1).1 rfl,
   (load_zero_delta_returns_zero UI_CPULoad_Init.1).2.1 rfl,
   (load_zero_delta_returns_zero UI_CPULoad_Init.1).2.2.1 rfl⟩

/-- C8: two successive sampling updates from the zero-initialized history —
sample `(total = 1000, idle = 500)` at tick 0 ms, then `(total = 2000,
idle = 1000)` at tick 10 ms — leave `(1000, 500, 0)` in slot 1 and
`(2000, 1000, 10)` in slot 0, and the instantaneous load
`100 * (1 - idle_delta / total_delta)`, with the deltas computed by unsigned
32-bit subtraction, is exactly 50 percent. -/
theorem load_scenario_fifty_percent :
    (UI_CPULoad_Update 10 2000 1000
        (UI_CPULoad_Update 0 1000 500 UI_CPULoad_Init.2 UI_CPULoad_Init.1).2
        (UI_CPULoad_Update 0 1000 500 UI_CPULoad_Init.2 UI_CPULoad_Init.1).1).1.h1 =
      ⟨1000, 500, 0⟩ ∧
    (UI_CPULoad_Update 10 2000 1000
        (UI_CPULoad_Update 0 1000 500 UI_CPULoad_Init.2 UI_CPULoad_Init.1).2
        (UI_CPULoad_Update 0 1000 500 UI_CPULoad_Init.2 UI_CPULoad_Init.1).1).1.h0 =
      ⟨2000, 1000, 10⟩ ∧
    UI_CPULoad_GetInstant
      (UI_CPULoad_Update 10 2000 1000
        (UI_CPULoad_Update 0 1000 500 UI_CPULoad_Init.2 UI_CPULoad_Init.1).2
        (UI_CPULoad_Update 0 1000 500 UI_CPULoad_Init.2 UI_CPULoad_Init.1).1).1 =
      some 50 := by
  refine ⟨by decide, by decide, ?_⟩
  norm_num [UI_CPULoad_Update, UI_CPULoad_Init, UI_CPULoad_GetInstant, fdivQ, usub32,
    UINT32_MOD]

/-! ## Theorems about bounds-checked slot lookup (C9) -/

/-- C9: for every C `int` index, the camera slot lookup
`Buffer_GetCameraDisplayBuffer` returns the error sentinel (`none`, i.e. NULL)
exactly when the index lies outside `[0, DISPLAY_BUFFER_NB)` — including every
negative index, via the `(unsigned)` cast — and returns the slot handle with
that index for every index inside; likewise `Buffer_GetUIBuffer` with bound 2. -/
theorem buffer_lookup_bounds (idx : Int) (hlo : -(2 ^ 31) ≤ idx) (hhi : idx < 2 ^ 31) :
    Option.map Fin.val (Buffer_GetCameraDisplayBuffer idx) =
      (if 0 ≤ idx ∧ idx < (DISPLAY_BUFFER_NB : Int) then some idx.toNat else none) ∧
    Option.map Fin.val (Buffer_GetUIBuffer idx) =
      (if 0 ≤ idx ∧ idx < 2 then some idx.toNat else none) := by
  unfold Buffer_GetCameraDisplayBuffer Buffer_GetUIBuffer bufferGetN castUnsigned
    DISPLAY_BUFFER_NB DISPLAY_DELAY UINT32_MOD
  norm_num
  constructor <;> split_ifs <;> simp_all <;> omega

/-- Witness for C9: index `-1` is rejected by both lookups. -/
theorem buffer_lookup_bounds_witness :
    Option.map Fin.val (Buffer_GetCameraDisplayBuffer (-1)) =
      (if 0 ≤ (-1 : Int) ∧ (-1 : Int) < (DISPLAY_BUFFER_NB : Int) then some (-1 : Int).toNat
       else none) ∧
    Option.map Fin.val (Buffer_GetUIBuffer (-1)) =
      (if 0 ≤ (-1 : Int) ∧ (-1 : Int) < 2 then some (-1 : Int).toNat else none) :=
  buffer_lookup_bounds (-1) (by norm_num) (by norm_num)

end FYP
